import Mathlib

set_option autoImplicit false

/-!
Shallow embedding of the fiftyone "looker" interactive overlay engine:

* src/app/packages/looker/src/overlays/base.ts — the overlay abstraction
  (CONTAINS, label records, the free `isShown` helper, CoordinateOverlay).
* src/app/packages/looker/src/elements/common.ts — the interaction
  controller (keydown / mouse / wheel handlers of LookerElement and
  CanvasElement) and the tooltip resolver `dispatchTooltipEvent`.

Conventions of the embedding:

* JS numbers used for coordinates, scales and pans become `ℚ`; the zoom
  factor literal `1.15` becomes `23/20`.
* A handler's returned partial-state object becomes a `Patch` (a record of
  `Option` fields); the state merge performed by the update engine (in
  looker.ts, not part of the studied sources) becomes `applyPatch`.
* A JS function that may throw (a filter predicate) becomes a Lean function
  into `Except Unit Bool`, with `Except.error ()` standing for a thrown
  exception.
* DOM-only side effects (preventDefault, stopPropagation, focus) are not
  state and are not modelled; timer scheduling is modelled by a Boolean
  recording whether the handler cleared-and-restarted its debounce timer.
-/

namespace Looker

/-- Pairs of rationals stand for the `Coordinates` tuple type of the source
(`[number, number]`). -/
abbrev Coordinates : Type := ℚ × ℚ

/-- Translated from overlays/base.ts: the containment classification.  The
source gives the variants the numeric values NONE = 0, CONTENT = 1,
BORDER = 2 (`toNat` below); JS truthiness of a CONTAINS value is therefore
equivalent to being different from NONE. -/
inductive CONTAINS : Type where
  | NONE : CONTAINS
  | CONTENT : CONTAINS
  | BORDER : CONTAINS
deriving DecidableEq

/-- The numeric value of each CONTAINS variant in the source enum. -/
def CONTAINS.toNat : CONTAINS → ℕ
  | CONTAINS.NONE => 0
  | CONTAINS.CONTENT => 1
  | CONTAINS.BORDER => 2

/-- Modelled from the spec: the NONFINITE type imported by overlays/base.ts
from ../state (a file not among the studied sources); it marks a
non-finite confidence value. -/
inductive NONFINITE : Type where
  | ninf : NONFINITE
  | inf : NONFINITE
  | nan : NONFINITE
deriving DecidableEq

/-- Translated from overlays/base.ts `RegularLabel` (which extends
`BaseLabel` with `label?` and `confidence?`). -/
structure RegularLabel : Type where
  id : String
  _cls : String
  frame_number : Option ℕ
  tags : List String
  index : Option ℤ
  label : Option String
  confidence : Option (ℚ ⊕ NONFINITE)

/-- Modelled from the spec: the coloring options (pool + seed + by-label
flag) consumed by `CoordinateOverlay.getColor`; the options type itself
lives in ../state, not among the studied sources. -/
structure Coloring : Type where
  pool : List String
  seed : ℕ
  byLabel : Bool

/-- Modelled from the spec: the nested `options` object of the viewer
state (visibility filters, coloring scheme, selected labels, display
toggles).  `activePaths = none` models an absent (undefined) list, and
`filter = none` an absent filter table; a present table maps a field name
to an optional predicate, and a predicate returning `Except.error ()`
models a JS filter function that throws. -/
structure Options : Type where
  activePaths : Option (List String)
  filter : Option (String → Option (RegularLabel → Except Unit Bool))
  coloring : Coloring
  selectedLabels : List String
  onlyShowHoveredLabel : Bool
  showLabel : Bool
  showConfidence : Bool
  showTooltip : Bool

/-- Modelled from the spec: the read-only `config` of the viewer state
(thumbnail-mode flag and media dimensions). -/
structure Config : Type where
  thumbnail : Bool
  dimensions : Coordinates

/-- Modelled from the spec: the viewer state snapshot (the `BaseState` of
../state, not among the studied sources), restricted to the fields the
studied handlers read or write.  `windowBBox` is (top-left x, top-left y,
width, height).  The frame number is optional (absent for images); frame
numbers are 1-based, so a present frame number is a positive natural and
the JS truthiness test `state.frameNumber && …` coincides with presence. -/
structure State : Type where
  pan : Coordinates
  scale : ℚ
  windowBBox : ℚ × ℚ × ℚ × ℚ
  cursorCoordinates : Coordinates
  rotate : ℤ
  panning : Bool
  hovering : Bool
  wheeling : Bool
  showControls : Bool
  showOptions : Bool
  canZoom : Bool
  fullscreen : Bool
  disableControls : Bool
  hoveringControls : Bool
  loaded : Bool
  playing : Bool
  frameNumber : Option ℕ+
  config : Config
  options : Options

/-- The first guard of overlays/base.ts `isShown`: the JS test
`state.options.activePaths && !state.options.activePaths.includes(field)`
(an absent list never excludes; a present list excludes every field not in
it, including every field when the list is empty, since an empty JS array
is truthy). -/
def excludedByActivePaths (o : Options) (field : String) : Bool :=
  match o.activePaths with
  | some paths => !(paths.contains field)
  | none => false

/-- Translated from overlays/base.ts `isShown`.  The source applies a
present per-field filter predicate directly, with no try/catch, so a
predicate modelled as `Except.error ()` (a throwing JS function)
propagates its error to the caller. -/
def isShown (state : State) (field : String) (label : RegularLabel) :
    Except Unit Bool :=
  if excludedByActivePaths state.options field then Except.ok false
  else
    match state.options.filter with
    | some table =>
      match table field with
      | some pred => pred label
      | none => Except.ok true
    | none => Except.ok true

/-- Translated from overlays/base.ts `SelectData` (the two interface
declarations merge to id + field + optional frame number). -/
structure SelectData : Type where
  id : String
  field : String
  frameNumber : Option ℕ+

/-- Translated from overlays/base.ts `PointInfo`. -/
structure PointInfo : Type where
  color : String
  field : String
  label : RegularLabel
  point : Option Coordinates
  target : Option ℚ
  type : String

/-- Translated from overlays/base.ts `CoordinateOverlay`: the field and
label set by the constructor, plus the lazily written private `color`
cache (`none` models the undefined initial value). -/
structure CoordinateOverlay : Type where
  field : String
  label : RegularLabel
  color : Option String

/-- The constructor of CoordinateOverlay: the color cache starts out
undefined. -/
def CoordinateOverlay.make (field : String) (label : RegularLabel) :
    CoordinateOverlay :=
  { field := field, label := label, color := none }

/-- JS truthiness of the cached color: the guard `!this.color` of
overlays/base.ts `getColor` is true when the field is undefined or holds
the empty string. -/
def colorUnset : Option String → Bool
  | none => true
  | some c => c = ""

/-- Translated from overlays/base.ts `CoordinateOverlay.getColor`.  The
external color utility `getColor` of ../color is excluded from the studied
sources, so it is passed in as the explicit function `gc` (pool → seed →
key → color).  The method mutates `this.color`; the embedding returns the
updated overlay together with the returned color string. -/
def CoordinateOverlay.getColor
    (gc : List String → ℕ → Option String → String)
    (o : CoordinateOverlay) (state : State) : CoordinateOverlay × String :=
  if colorUnset o.color then
    let key : Option String :=
      if state.options.coloring.byLabel then o.label.label else some o.field
    let c := gc state.options.coloring.pool state.options.coloring.seed key
    ({ o with color := some c }, c)
  else
    (o, o.color.getD "")

/-- Translated from overlays/base.ts `CoordinateOverlay.isShown`:
delegates to the free `isShown` with the instance's field and label. -/
def CoordinateOverlay.shown (o : CoordinateOverlay) (state : State) :
    Except Unit Bool :=
  isShown state o.field o.label

/-- Translated from overlays/base.ts `CoordinateOverlay.isSelected`. -/
def CoordinateOverlay.isSelected (o : CoordinateOverlay) (state : State) :
    Bool :=
  state.options.selectedLabels.contains o.label.id

/-- Translated from overlays/base.ts `CoordinateOverlay.getSelectData`. -/
def CoordinateOverlay.getSelectData (o : CoordinateOverlay) (state : State) :
    SelectData :=
  { id := o.label.id, field := o.field, frameNumber := state.frameNumber }

/-! elements/common.ts — the interaction controller and tooltip resolver. -/

/-- A partial-state object returned by a handler of elements/common.ts
(restricted to the fields those handlers ever set); `none` means the field
is absent from the returned object. -/
structure Patch : Type where
  pan : Option Coordinates
  scale : Option ℚ
  rotate : Option ℤ
  panning : Option Bool
  hovering : Option Bool
  wheeling : Option Bool
  showControls : Option Bool
  showOptions : Option Bool
  canZoom : Option Bool
  disableControls : Option Bool
  cursorCoordinates : Option Coordinates

/-- The empty partial state `{}` returned by the no-op branches of the
handlers. -/
def Patch.empty : Patch :=
  { pan := none, scale := none, rotate := none, panning := none,
    hovering := none, wheeling := none, showControls := none,
    showOptions := none, canZoom := none, disableControls := none,
    cursorCoordinates := none }

/-- Modelled from the spec: the Update/Dispatch Engine (looker.ts, not
among the studied sources) merges a handler's partial patch into the state
snapshot field by field; an absent field leaves the state field
unchanged. -/
def applyPatch (s : State) (p : Patch) : State :=
  { s with
    pan := p.pan.getD s.pan,
    scale := p.scale.getD s.scale,
    rotate := p.rotate.getD s.rotate,
    panning := p.panning.getD s.panning,
    hovering := p.hovering.getD s.hovering,
    wheeling := p.wheeling.getD s.wheeling,
    showControls := p.showControls.getD s.showControls,
    showOptions := p.showOptions.getD s.showOptions,
    canZoom := p.canZoom.getD s.canZoom,
    disableControls := p.disableControls.getD s.disableControls,
    cursorCoordinates := p.cursorCoordinates.getD s.cursorCoordinates }

/-- Translated from the keydown handler of LookerElement
(elements/common.ts): the patch committed for each key of the switch
statement.  ArrowDown and ArrowUp adjust the rotate index (ArrowUp
clamping at zero via Math.max); Escape closes controls and options; the
key s returns the current values of showOptions and showControls
unchanged. -/
def keydownPatch (key : String) (s : State) : Patch :=
  if key = "ArrowDown" then
    { Patch.empty with rotate := some (s.rotate + 1) }
  else if key = "ArrowUp" then
    { Patch.empty with rotate := some (max (s.rotate - 1) 0) }
  else if key = "Escape" then
    { Patch.empty with showControls := some false, showOptions := some false }
  else if key = "s" then
    { Patch.empty with showOptions := some s.showOptions,
                       showControls := some s.showControls }
  else Patch.empty

/-- The title string the options button advertises
(OptionsButtonElement.createHTMLElement of elements/common.ts). -/
def optionsButtonTitle : String := "Settings (s)"

/-- The page position of a mouse event (`event.pageX`, `event.pageY`) and,
for wheel events, the client position (`event.x`, `event.y`) and wheel
delta. -/
structure MouseEvt : Type where
  pageX : ℚ
  pageY : ℚ

/-- Translated from the mousedown handler of LookerElement: in thumbnail
mode nothing happens; otherwise the drag anchor `this.start` is set to
pagePosition − currentPan and the patch {panning: true, canZoom: false}
is returned.  The embedding returns the new value of `this.start`
together with the patch (`start` is the previous value of the private
field). -/
def mousedownStart (s : State) (e : MouseEvt) (start : Coordinates) :
    Coordinates × Patch :=
  if s.config.thumbnail then (start, Patch.empty)
  else ((e.pageX - s.pan.1, e.pageY - s.pan.2),
        { Patch.empty with panning := some true, canZoom := some false })

/-- Translated from the private LookerElement.getPan: the pan for a page
position is the position minus the drag anchor `this.start`. -/
def getPan (start : Coordinates) (p : Coordinates) : Coordinates :=
  (p.1 - start.1, p.2 - start.2)

/-- Translated from the state-patch part of the mousemove handler of
LookerElement (the debounced controls-auto-hide timer it also restarts is
separate and commits no patch of its own here): while not panning (or in
thumbnail mode) only a residual rotate is cleared; while panning the pan
is recomputed from the drag anchor. -/
def lookerMousemovePatch (start : Coordinates) (s : State) (e : MouseEvt) :
    Patch :=
  if s.config.thumbnail || !s.panning then
    if s.rotate ≠ 0 then { Patch.empty with rotate := some 0 }
    else Patch.empty
  else
    { Patch.empty with rotate := some (0 : ℤ),
                       pan := some (getPan start (e.pageX, e.pageY)) }

/-- Translated from the mouseup handler of LookerElement: while panning
(non-thumbnail) the pan is finalized from the drag anchor and panning is
cleared; otherwise the patch is empty. -/
def mouseupPatch (start : Coordinates) (s : State) (e : MouseEvt) : Patch :=
  if s.config.thumbnail || !s.panning then Patch.empty
  else
    { Patch.empty with panning := some false,
                       pan := some (getPan start (e.pageX, e.pageY)) }

/-- A wheel event: client position (`event.x`, `event.y`), wheel delta,
and page position. -/
structure WheelEvt : Type where
  x : ℚ
  y : ℚ
  deltaY : ℚ
  pageX : ℚ
  pageY : ℚ

/-- The clamped candidate scale of the wheel handler: `clampScale` of
../util is not among the studied sources, so it is passed in as an
explicit function (windowSize → mediaSize → candidate → scale); the
candidate multiplies the current scale by 1.15 (= 23/20) for zoom-in
(deltaY < 0) and divides it for zoom-out, exactly as the source does. -/
def wheelNewScale (clampScale : Coordinates → Coordinates → ℚ → ℚ)
    (s : State) (e : WheelEvt) : ℚ :=
  clampScale (s.windowBBox.2.2.1, s.windowBBox.2.2.2) s.config.dimensions
    (if e.deltaY < 0 then s.scale * (23 / 20 : ℚ) else s.scale / (23 / 20 : ℚ))

/-- The outcome of the wheel handler: the committed patch, plus whether
the handler cleared and restarted the wheel-settle debounce timer (it
does so only on the committing branch). -/
structure WheelOutcome : Type where
  patch : Patch
  restartedTimer : Bool

/-- Translated from the wheel handler of LookerElement: in thumbnail mode
nothing happens; otherwise the cursor is taken relative to the window
box, expressed in unscaled coordinates at the current scale, the clamped
new scale is computed, and — only if it differs from the current scale —
the settle timer is restarted and the patch commits the recomputed pan,
the new scale, canZoom = false, the cursor page position, and
wheeling = true. -/
def wheelUpdate (clampScale : Coordinates → Coordinates → ℚ → ℚ)
    (s : State) (e : WheelEvt) : WheelOutcome :=
  if s.config.thumbnail then { patch := Patch.empty, restartedTimer := false }
  else
    let x := e.x - s.windowBBox.1
    let y := e.y - s.windowBBox.2.1
    let xs := (x - s.pan.1) / s.scale
    let ys := (y - s.pan.2) / s.scale
    let newScale := wheelNewScale clampScale s e
    if s.scale = newScale then
      { patch := Patch.empty, restartedTimer := false }
    else
      { patch :=
          { Patch.empty with
            pan := some (x - xs * newScale, y - ys * newScale),
            scale := some newScale,
            canZoom := some false,
            cursorCoordinates := some (e.pageX, e.pageY),
            wheeling := some true },
        restartedTimer := true }

/-- The unscaled (pre-zoom image-space) coordinate lying under the
window-relative cursor position (wx, wy) in state `s`: (cursor − pan) /
scale, the quantity the wheel handler holds fixed. -/
def unscaled (s : State) (wx wy : ℚ) : Coordinates :=
  ((wx - s.pan.1) / s.scale, (wy - s.pan.2) / s.scale)

/-- The detail record built by the tooltip resolver before dispatch: a
PointInfo, possibly mutated to carry the state's frame number. -/
structure TooltipDetail : Type where
  info : PointInfo
  frameNumber : Option ℕ+

/-- The payload of a dispatched tooltip event: the detail spread together
with the state's cursor coordinates. -/
structure TooltipPayload : Type where
  info : PointInfo
  frameNumber : Option ℕ+
  coordinates : Coordinates

/-- The externally dispatched events of the studied handlers. -/
inductive Event : Type where
  | tooltip : Option TooltipPayload → Event
  | select : SelectData → Event
  | mouseenter : Event
  | mouseleave : Event

/-- The capability record of an overlay as consumed by the tooltip
resolver and the canvas click handler (the concrete geometry variants are
outside the studied sources). -/
structure OverlayFns : Type where
  containsPoint : State → CONTAINS
  getPointInfo : State → PointInfo
  getSelectData : State → SelectData

/-- Translated from `dispatchTooltipEvent` of elements/common.ts: nothing
is dispatched while a thumbnail is playing, or when options.showTooltip
is false; otherwise the detail is the first overlay's PointInfo when the
list is nonempty and that overlay's containsPoint is truthy (≠ NONE), else
null; a present (hence truthy) frame number is attached to a non-null
detail; and a tooltip event is dispatched whose payload spreads the detail
with the state's cursorCoordinates, or is null. -/
def dispatchTooltipEvent (s : State) (overlays : List OverlayFns) :
    List Event :=
  if s.playing && s.config.thumbnail then []
  else if !s.options.showTooltip then []
  else
    let detail : Option TooltipDetail :=
      match overlays with
      | [] => none
      | o :: _ =>
        if o.containsPoint s ≠ CONTAINS.NONE then
          some { info := o.getPointInfo s, frameNumber := none }
        else none
    let detail : Option TooltipDetail :=
      match s.frameNumber, detail with
      | some n, some d => some { d with frameNumber := some n }
      | _, _ => detail
    [Event.tooltip (detail.map fun d =>
      { info := d.info, frameNumber := d.frameNumber,
        coordinates := s.cursorCoordinates })]

/-- Translated from the mouseleave handler of CanvasElement
(elements/common.ts): it dispatches a tooltip event with null payload
unconditionally — it does not read the state at all. -/
def canvasMouseleaveEvents (_s : State) : List Event :=
  [Event.tooltip none]

/-! Concrete fixtures used by the witnesses and counterexamples. -/

/-- A concrete annotation label. -/
def defaultLabel : RegularLabel :=
  { id := "label-1", _cls := "Detection", frame_number := none,
    tags := [], index := none, label := some "cat", confidence := none }

/-- Concrete default options: no active-path restriction, no filter table,
tooltips enabled. -/
def defaultOptions : Options :=
  { activePaths := none, filter := none,
    coloring := { pool := ["#ee0000", "#0000ee"], seed := 7,
                  byLabel := false },
    selectedLabels := [], onlyShowHoveredLabel := false,
    showLabel := false, showConfidence := false, showTooltip := true }

/-- A concrete non-thumbnail viewer state at scale 1 with zero pan. -/
def defaultState : State :=
  { pan := (0, 0), scale := 1, windowBBox := (0, 0, 800, 600),
    cursorCoordinates := (0, 0), rotate := 0,
    panning := false, hovering := false, wheeling := false,
    showControls := false, showOptions := false, canZoom := true,
    fullscreen := false, disableControls := false,
    hoveringControls := false, loaded := true, playing := false,
    frameNumber := none,
    config := { thumbnail := false, dimensions := (640, 480) },
    options := defaultOptions }

/-- A predicate modelling a JS filter function that throws on every
label. -/
def raisingPred : RegularLabel → Except Unit Bool :=
  fun _ => Except.error ()

/-- A filter table mapping the field ground_truth to the raising predicate
and no other field to anything. -/
def raisingTable : String → Option (RegularLabel → Except Unit Bool) :=
  fun f => if f = "ground_truth" then some raisingPred else none

/-- A state whose filter table maps the field ground_truth to the raising
predicate. -/
def raisingFilterState : State :=
  { defaultState with
    options := { defaultOptions with filter := some raisingTable } }

/-- A state whose active paths exclude every field except
ground_truth. -/
def excludedState : State :=
  { defaultState with
    options := { defaultOptions with activePaths := some ["ground_truth"] } }

/-- A state whose options have tooltips disabled. -/
def noTooltipState : State :=
  { defaultState with
    options := { defaultOptions with showTooltip := false } }

/-- The default state while a drag is in progress. -/
def panningState : State :=
  { defaultState with panning := true }

/-- A state with coloring options (pool, seed, byLabel) all different from
the default ones. -/
def recoloredState : State :=
  { defaultState with
    options :=
      { defaultOptions with
        coloring := { pool := ["#00ff00"], seed := 99, byLabel := true } } }

/-- A concrete external color function that never returns the empty
string. -/
def constColor : List String → ℕ → Option String → String :=
  fun _ _ _ => "#ee0000"

/-- A concrete point-info record. -/
def samplePointInfo : PointInfo :=
  { color := "#ee0000", field := "predictions", label := defaultLabel,
    point := none, target := none, type := "Detection" }

/-- A concrete overlay capability record whose containsPoint always
reports CONTENT containment. -/
def contentOverlay : OverlayFns :=
  { containsPoint := fun _ => CONTAINS.CONTENT,
    getPointInfo := fun _ => samplePointInfo,
    getSelectData := fun _ =>
      { id := "label-1", field := "predictions", frameNumber := none } }

/-- A concrete overlay capability record whose containsPoint always
reports NONE. -/
def missOverlay : OverlayFns :=
  { containsPoint := fun _ => CONTAINS.NONE,
    getPointInfo := fun _ => samplePointInfo,
    getSelectData := fun _ =>
      { id := "label-1", field := "predictions", frameNumber := none } }

/-- The identity clamp: accepts every candidate scale. -/
def idClamp : Coordinates → Coordinates → ℚ → ℚ := fun _ _ c => c

/-- A clamp pinned at scale 1 (a candidate already at a bound comes back
unchanged). -/
def pinnedClamp : Coordinates → Coordinates → ℚ → ℚ := fun _ _ _ => 1

/-! Theorems. -/

/-- C10: the s key handler is a state no-op: for every state, the
committed patch sets showOptions and showControls to their current
values, so the committed state equals the previous state in every field
(even though `optionsButtonTitle` advertises the s key as the settings
toggle). -/
theorem c10_s_key_noop (s : State) :
    (keydownPatch ("s") s).showOptions = some s.showOptions ∧
    (keydownPatch ("s") s).showControls = some s.showControls ∧
    applyPatch s (keydownPatch ("s") s) = s :=
  ⟨rfl, rfl, rfl⟩

/-- Each single keydown patch keeps a non-negative rotate index
non-negative. -/
theorem keydown_rotate_nonneg (k : String) (s : State) (h : 0 ≤ s.rotate) :
    0 ≤ (applyPatch s (keydownPatch k s)).rotate := by
  unfold keydownPatch
  split_ifs <;> simp [applyPatch, Patch.empty] <;> omega

/-- Any sequence of keydown events keeps a non-negative rotate index
non-negative. -/
theorem keydown_fold_rotate_nonneg (keys : List String) :
    ∀ s : State, 0 ≤ s.rotate →
      0 ≤ (keys.foldl (fun t k => applyPatch t (keydownPatch k t)) s).rotate := by
  induction keys with
  | nil => exact fun s h => h
  | cons k ks ih => exact fun s h => ih _ (keydown_rotate_nonneg k s h)

/-- C8: for every state with rotate ≥ 0, the ArrowDown handler commits
rotate + 1 and the ArrowUp handler commits max(rotate − 1, 0), and rotate
stays non-negative under any sequence of keydown events (in particular
any sequence of ArrowUp/ArrowDown). -/
theorem c8_rotate_bounds (s : State) (h : 0 ≤ s.rotate) :
    (applyPatch s (keydownPatch ("ArrowDown") s)).rotate = s.rotate + 1 ∧
    (applyPatch s (keydownPatch ("ArrowUp") s)).rotate = max (s.rotate - 1) 0 ∧
    ∀ keys : List String,
      0 ≤ (keys.foldl (fun t k => applyPatch t (keydownPatch k t)) s).rotate :=
  ⟨rfl, rfl, fun keys => keydown_fold_rotate_nonneg keys s h⟩

/-- C8 witness: at the default state (rotate = 0), ArrowDown commits 1,
ArrowUp commits max(0 − 1, 0), and a concrete key sequence keeps rotate
non-negative. -/
theorem c8_rotate_bounds_witness :
    0 ≤ defaultState.rotate ∧
    (applyPatch defaultState (keydownPatch ("ArrowDown") defaultState)).rotate
      = defaultState.rotate + 1 ∧
    (applyPatch defaultState (keydownPatch ("ArrowUp") defaultState)).rotate
      = max (defaultState.rotate - 1) 0 ∧
    0 ≤ ((["ArrowUp", "ArrowDown", "ArrowUp", "ArrowUp"].foldl
          (fun t k => applyPatch t (keydownPatch k t)) defaultState)).rotate := by
  have h := c8_rotate_bounds defaultState (by decide)
  exact ⟨by decide, h.1, h.2.1,
    h.2.2 ["ArrowUp", "ArrowDown", "ArrowUp", "ArrowUp"]⟩

/-- C7: the isShown contract: exclusion by activePaths returns false
(ok false); otherwise a present per-field filter predicate decides the
verdict; otherwise (no filter table, or no entry for the field) the
result is true.  The embedding is a pure function, so freedom from side
effects holds by construction. -/
theorem c7_isShown_contract (s : State) (field : String)
    (label : RegularLabel) :
    (∀ paths, s.options.activePaths = some paths →
      paths.contains field = false →
      isShown s field label = Except.ok false) ∧
    (excludedByActivePaths s.options field = false →
      ∀ table pred, s.options.filter = some table → table field = some pred →
        isShown s field label = pred label) ∧
    (excludedByActivePaths s.options field = false →
      s.options.filter = none →
      isShown s field label = Except.ok true) ∧
    (excludedByActivePaths s.options field = false →
      ∀ table, s.options.filter = some table → table field = none →
        isShown s field label = Except.ok true) := by
  refine ⟨?_, ?_, ?_, ?_⟩
  · intro paths hap hc
    have hex : excludedByActivePaths s.options field = true := by
      simp only [excludedByActivePaths, hap, hc, Bool.not_false]
    simp [isShown, hex]
  · intro hex table pred hf hp
    simp [isShown, hex, hf, hp]
  · intro hex hf
    simp [isShown, hex, hf]
  · intro hex table hf hp
    simp [isShown, hex, hf, hp]

/-- C7 witness: a field excluded by activePaths is hidden, a present
raising predicate's verdict is returned as-is, and with no filter the
overlay is shown. -/
theorem c7_isShown_contract_witness :
    isShown excludedState ("predictions") defaultLabel = Except.ok false ∧
    isShown raisingFilterState ("ground_truth") defaultLabel
      = raisingPred defaultLabel ∧
    isShown defaultState ("predictions") defaultLabel = Except.ok true := by
  refine ⟨?_, ?_, ?_⟩
  · exact (c7_isShown_contract excludedState ("predictions")
      defaultLabel).1 ["ground_truth"] rfl (by decide)
  · exact (c7_isShown_contract raisingFilterState ("ground_truth")
      defaultLabel).2.1 rfl raisingTable raisingPred rfl rfl
  · exact (c7_isShown_contract defaultState ("predictions")
      defaultLabel).2.2.1 rfl rfl

/-- C4 counterexample: with a present filter predicate that raises on the
label, isShown propagates the error — it does not return true, so the
overlay is not treated as shown (no fail-open in the source). -/
theorem c4_fail_open_counterexample :
    isShown raisingFilterState ("ground_truth") defaultLabel
      = Except.error () ∧
    isShown raisingFilterState ("ground_truth") defaultLabel
      ≠ Except.ok true := by
  have h : isShown raisingFilterState ("ground_truth") defaultLabel
      = Except.error () := rfl
  exact ⟨h, by simp [h]⟩

/-- C4 amended: if the per-field filter predicate raises when applied to
the label (and the field is not excluded by activePaths), isShown
propagates the error to its caller: the source applies the predicate with
no try/catch, so a raising predicate neither shows nor hides the overlay
— the error escapes. -/
theorem c4_filter_error_propagates (s : State) (field : String)
    (label : RegularLabel)
    (table : String → Option (RegularLabel → Except Unit Bool))
    (pred : RegularLabel → Except Unit Bool)
    (hex : excludedByActivePaths s.options field = false)
    (hf : s.options.filter = some table)
    (hp : table field = some pred)
    (he : pred label = Except.error ()) :
    isShown s field label = Except.error () := by
  simp [isShown, hex, hf, hp, he]

/-- C2: pan anchoring: the anchor captured at pointer-down (outside
thumbnail mode) is pagePosition − currentPan, and every pointer-move and
pointer-up committed while panning produces pan = pagePosition − anchor. -/
theorem c2_pan_anchoring (s s1 : State) (e0 e1 : MouseEvt)
    (start0 : Coordinates)
    (hthumb : s.config.thumbnail = false)
    (hthumb1 : s1.config.thumbnail = false)
    (hpanning : s1.panning = true) :
    (mousedownStart s e0 start0).1
      = (e0.pageX - s.pan.1, e0.pageY - s.pan.2) ∧
    (lookerMousemovePatch (mousedownStart s e0 start0).1 s1 e1).pan
      = some (e1.pageX - (e0.pageX - s.pan.1),
              e1.pageY - (e0.pageY - s.pan.2)) ∧
    (mouseupPatch (mousedownStart s e0 start0).1 s1 e1).pan
      = some (e1.pageX - (e0.pageX - s.pan.1),
              e1.pageY - (e0.pageY - s.pan.2)) := by
  have hstart : (mousedownStart s e0 start0).1
      = (e0.pageX - s.pan.1, e0.pageY - s.pan.2) := by
    simp [mousedownStart, hthumb]
  have hcond : (s1.config.thumbnail || !s1.panning) = false := by
    simp [hthumb1, hpanning]
  refine ⟨hstart, ?_, ?_⟩
  · rw [hstart]
    simp [lookerMousemovePatch, hcond, getPan]
  · rw [hstart]
    simp [mouseupPatch, hcond, getPan]

/-- C2 witness: starting a drag at page position (100,100) with pan (0,0)
anchors at (100,100); moving to (150,120) yields pan (50,20); moving back
to (100,100) yields pan (0,0). -/
theorem c2_pan_anchoring_witness :
    defaultState.config.thumbnail = false ∧
    panningState.panning = true ∧
    (mousedownStart defaultState (MouseEvt.mk 100 100) (0, 0)).1
      = (100, 100) ∧
    (lookerMousemovePatch
        (mousedownStart defaultState (MouseEvt.mk 100 100) (0, 0)).1
        panningState (MouseEvt.mk 150 120)).pan = some (50, 20) ∧
    (lookerMousemovePatch
        (mousedownStart defaultState (MouseEvt.mk 100 100) (0, 0)).1
        panningState (MouseEvt.mk 100 100)).pan = some (0, 0) := by
  have h1 := c2_pan_anchoring defaultState panningState (MouseEvt.mk 100 100)
    (MouseEvt.mk 150 120) (0, 0) rfl rfl rfl
  have h2 := c2_pan_anchoring defaultState panningState (MouseEvt.mk 100 100)
    (MouseEvt.mk 100 100) (0, 0) rfl rfl rfl
  refine ⟨rfl, rfl, ?_, ?_, ?_⟩
  · rw [h1.1]; norm_num [defaultState]
  · rw [h1.2.1]; norm_num [defaultState]
  · rw [h2.2.1]; norm_num [defaultState]

/-- C3: no-op wheel: outside thumbnail mode, when the clamped scale equals
the current scale the wheel handler returns the empty patch and does not
restart the settle timer, and committing the empty patch leaves every
state field unchanged. -/
theorem c3_wheel_noop (clampScale : Coordinates → Coordinates → ℚ → ℚ)
    (s : State) (e : WheelEvt)
    (hthumb : s.config.thumbnail = false)
    (hsame : wheelNewScale clampScale s e = s.scale) :
    wheelUpdate clampScale s e
      = { patch := Patch.empty, restartedTimer := false } ∧
    applyPatch s Patch.empty = s := by
  constructor
  · simp [wheelUpdate, hthumb, hsame]
  · rfl

/-- C3 witness: at the default state (scale 1) with a clamp pinned at 1,
the wheel handler is a no-op. -/
theorem c3_wheel_noop_witness :
    defaultState.config.thumbnail = false ∧
    wheelNewScale pinnedClamp defaultState (WheelEvt.mk 300 200 (-1) 300 200)
      = defaultState.scale ∧
    wheelUpdate pinnedClamp defaultState (WheelEvt.mk 300 200 (-1) 300 200)
      = { patch := Patch.empty, restartedTimer := false } ∧
    applyPatch defaultState Patch.empty = defaultState := by
  have h := c3_wheel_noop pinnedClamp defaultState
    (WheelEvt.mk 300 200 (-1) 300 200) rfl (by decide)
  exact ⟨rfl, by decide, h.1, h.2⟩

/-- C5 counterexample: in a concrete state with showTooltip = false, the
canvas mouseleave handler still dispatches a tooltip event (with null
payload), so the claim that no handler ever dispatches a tooltip event
while showTooltip is false fails at mouse leave. -/
theorem c5_tooltip_suppression_counterexample :
    noTooltipState.options.showTooltip = false ∧
    canvasMouseleaveEvents noTooltipState = [Event.tooltip none] ∧
    canvasMouseleaveEvents noTooltipState ≠ [] := by
  refine ⟨rfl, rfl, ?_⟩
  simp [canvasMouseleaveEvents]

/-- C5 amended: when options.showTooltip is false the tooltip resolver
dispatchTooltipEvent dispatches nothing, for every state and overlay
list; the canvas mouseleave handler, however, dispatches a tooltip event
with null payload regardless of the state. -/
theorem c5_tooltip_suppression_amended (s : State)
    (overlays : List OverlayFns)
    (h : s.options.showTooltip = false) :
    dispatchTooltipEvent s overlays = [] ∧
    canvasMouseleaveEvents s = [Event.tooltip none] := by
  constructor
  · simp [dispatchTooltipEvent, h]
  · rfl

/-- C5 witness: the amended behaviour at a concrete tooltip-disabled state
and a concrete overlay under the cursor. -/
theorem c5_tooltip_suppression_amended_witness :
    noTooltipState.options.showTooltip = false ∧
    dispatchTooltipEvent noTooltipState [contentOverlay] = [] ∧
    canvasMouseleaveEvents noTooltipState = [Event.tooltip none] :=
  ⟨rfl,
   (c5_tooltip_suppression_amended noTooltipState [contentOverlay] rfl).1,
   (c5_tooltip_suppression_amended noTooltipState [contentOverlay] rfl).2⟩

/-- C6: tooltip resolution: with showTooltip true and not in the
playing-thumbnail case, a first-ranked overlay with truthy (non-NONE)
containment yields a payload that is its PointInfo together with the
state's frame number (when present) and the state's cursor coordinates;
an empty list, or a first-ranked overlay reporting NONE, yields a null
payload. -/
theorem c6_tooltip_resolution (s : State) (o : OverlayFns)
    (rest : List OverlayFns)
    (hshow : s.options.showTooltip = true)
    (hpt : (s.playing && s.config.thumbnail) = false) :
    (o.containsPoint s ≠ CONTAINS.NONE →
      dispatchTooltipEvent s (o :: rest)
        = [Event.tooltip (some
            { info := o.getPointInfo s, frameNumber := s.frameNumber,
              coordinates := s.cursorCoordinates })]) ∧
    (o.containsPoint s = CONTAINS.NONE →
      dispatchTooltipEvent s (o :: rest) = [Event.tooltip none]) ∧
    dispatchTooltipEvent s [] = [Event.tooltip none] := by
  refine ⟨?_, ?_, ?_⟩
  · intro hc
    cases hfn : s.frameNumber with
    | none => simp [dispatchTooltipEvent, hpt, hshow, hc, hfn]
    | some n => simp [dispatchTooltipEvent, hpt, hshow, hc, hfn]
  · intro hc
    cases hfn : s.frameNumber with
    | none => simp [dispatchTooltipEvent, hpt, hshow, hc, hfn]
    | some n => simp [dispatchTooltipEvent, hpt, hshow, hc, hfn]
  · cases hfn : s.frameNumber with
    | none => simp [dispatchTooltipEvent, hpt, hshow, hfn]
    | some n => simp [dispatchTooltipEvent, hpt, hshow, hfn]

/-- C6 witness: at the default state, an overlay reporting CONTENT yields
its PointInfo with the cursor coordinates attached, and an overlay
reporting NONE yields a null payload. -/
theorem c6_tooltip_resolution_witness :
    defaultState.options.showTooltip = true ∧
    (defaultState.playing && defaultState.config.thumbnail) = false ∧
    contentOverlay.containsPoint defaultState ≠ CONTAINS.NONE ∧
    dispatchTooltipEvent defaultState [contentOverlay]
      = [Event.tooltip (some
          { info := contentOverlay.getPointInfo defaultState,
            frameNumber := defaultState.frameNumber,
            coordinates := defaultState.cursorCoordinates })] ∧
    dispatchTooltipEvent defaultState [missOverlay]
      = [Event.tooltip none] := by
  have h1 := c6_tooltip_resolution defaultState contentOverlay [] rfl rfl
  have h2 := c6_tooltip_resolution defaultState missOverlay [] rfl rfl
  exact ⟨rfl, rfl, by decide, h1.1 (by decide), h2.2.1 rfl⟩

/-- When the clamped scale differs from the current one (outside thumbnail
mode), the wheel handler restarts the settle timer and commits the
zoom-at-cursor patch of the source. -/
theorem wheelUpdate_commits
    (clampScale : Coordinates → Coordinates → ℚ → ℚ)
    (s : State) (e : WheelEvt)
    (hthumb : s.config.thumbnail = false)
    (hne : ¬ s.scale = wheelNewScale clampScale s e) :
    wheelUpdate clampScale s e
      = { patch :=
            { Patch.empty with
              pan := some
                (e.x - s.windowBBox.1
                   - (e.x - s.windowBBox.1 - s.pan.1) / s.scale
                       * wheelNewScale clampScale s e,
                 e.y - s.windowBBox.2.1
                   - (e.y - s.windowBBox.2.1 - s.pan.2) / s.scale
                       * wheelNewScale clampScale s e),
              scale := some (wheelNewScale clampScale s e),
              canZoom := some false,
              cursorCoordinates := some (e.pageX, e.pageY),
              wheeling := some true },
          restartedTimer := true } := by
  simp [wheelUpdate, hthumb, hne]

/-- C1: zoom-at-cursor preserves the point under the pointer: for every
non-thumbnail state with positive scale and every wheel event whose
clamped scale is positive and differs from the current scale (so the
handler commits), the unscaled coordinate under the cursor computed from
the committed state equals the one computed from the previous state. -/
theorem c1_zoom_preserves_cursor_point
    (clampScale : Coordinates → Coordinates → ℚ → ℚ)
    (s : State) (e : WheelEvt)
    (hthumb : s.config.thumbnail = false)
    (hscale : 0 < s.scale)
    (hpos : 0 < wheelNewScale clampScale s e)
    (hcommit : ¬ s.scale = wheelNewScale clampScale s e) :
    unscaled (applyPatch s (wheelUpdate clampScale s e).patch)
        (e.x - s.windowBBox.1) (e.y - s.windowBBox.2.1)
      = unscaled s (e.x - s.windowBBox.1) (e.y - s.windowBBox.2.1) := by
  have hs0 : s.scale ≠ 0 := ne_of_gt hscale
  have hn0 : wheelNewScale clampScale s e ≠ 0 := ne_of_gt hpos
  rw [wheelUpdate_commits clampScale s e hthumb hcommit]
  simp only [applyPatch, unscaled, Option.getD_some, Option.getD_none,
    Prod.mk.injEq]
  constructor <;> (field_simp; ring)

/-- C1 witness: zooming in at the default state (scale 1, pan (0,0)) with
the identity clamp commits scale 23/20 and keeps the unscaled point under
the cursor fixed. -/
theorem c1_zoom_preserves_cursor_point_witness :
    defaultState.config.thumbnail = false ∧
    (0 : ℚ) < defaultState.scale ∧
    0 < wheelNewScale idClamp defaultState
        (WheelEvt.mk 300 200 (-1) 300 200) ∧
    ¬ defaultState.scale
        = wheelNewScale idClamp defaultState
            (WheelEvt.mk 300 200 (-1) 300 200) ∧
    unscaled
        (applyPatch defaultState
          (wheelUpdate idClamp defaultState
              (WheelEvt.mk 300 200 (-1) 300 200)).patch)
        ((WheelEvt.mk 300 200 (-1) 300 200).x - defaultState.windowBBox.1)
        ((WheelEvt.mk 300 200 (-1) 300 200).y - defaultState.windowBBox.2.1)
      = unscaled defaultState
        ((WheelEvt.mk 300 200 (-1) 300 200).x - defaultState.windowBBox.1)
        ((WheelEvt.mk 300 200 (-1) 300 200).y - defaultState.windowBBox.2.1) := by
  refine ⟨rfl, by norm_num [defaultState], ?_, ?_, ?_⟩
  · norm_num [wheelNewScale, idClamp, defaultState]
  · norm_num [wheelNewScale, idClamp, defaultState]
  · exact c1_zoom_preserves_cursor_point idClamp defaultState
      (WheelEvt.mk 300 200 (-1) 300 200) rfl
      (by norm_num [defaultState])
      (by norm_num [wheelNewScale, idClamp, defaultState])
      (by norm_num [wheelNewScale, idClamp, defaultState])

/-- The first getColor call on an overlay with an unset cache computes the
color from the state's coloring options (key = label text when coloring
by label, else the field name) and writes the cache. -/
theorem getColor_unset_eq (gc : List String → ℕ → Option String → String)
    (o : CoordinateOverlay) (s : State) (hinit : o.color = none) :
    CoordinateOverlay.getColor gc o s
      = ({ o with color := some (gc s.options.coloring.pool
              s.options.coloring.seed
              (if s.options.coloring.byLabel then o.label.label
               else some o.field)) },
         gc s.options.coloring.pool s.options.coloring.seed
           (if s.options.coloring.byLabel then o.label.label
            else some o.field)) := by
  simp [CoordinateOverlay.getColor, hinit, colorUnset]

/-- A getColor call on an overlay whose cache holds a truthy (non-empty)
string is a pure cache hit: it returns the cached string and leaves the
instance unchanged, whatever the state's coloring options. -/
theorem getColor_cached_eq (gc : List String → ℕ → Option String → String)
    (o : CoordinateOverlay) (s : State) (c : String)
    (hcol : o.color = some c) (hne : c ≠ "") :
    CoordinateOverlay.getColor gc o s = (o, c) := by
  have hunset : colorUnset o.color = false := by
    rw [hcol]
    simpa [colorUnset] using hne
  unfold CoordinateOverlay.getColor
  rw [hunset]
  simp [hcol]

/-- C9: color caching: starting from an unset cache, the first getColor
call writes the cache, and — provided the color the external utility
produced is not the empty string, which the truthiness guard of the
source would treat as still unset — every later call, with any state (in
particular one whose pool/seed/byLabel coloring options differ), returns
the same cached string and leaves the instance unchanged, so the cached
field is written at most once. -/
theorem c9_color_cached (gc : List String → ℕ → Option String → String)
    (o : CoordinateOverlay) (s0 : State)
    (hinit : o.color = none)
    (hne : (CoordinateOverlay.getColor gc o s0).2 ≠ "") :
    ((CoordinateOverlay.getColor gc o s0).1).color
      = some (CoordinateOverlay.getColor gc o s0).2 ∧
    ∀ s1 : State,
      CoordinateOverlay.getColor gc (CoordinateOverlay.getColor gc o s0).1 s1
        = ((CoordinateOverlay.getColor gc o s0).1,
           (CoordinateOverlay.getColor gc o s0).2) := by
  have hcol : ((CoordinateOverlay.getColor gc o s0).1).color
      = some (CoordinateOverlay.getColor gc o s0).2 := by
    rw [getColor_unset_eq gc o s0 hinit]
  exact ⟨hcol, fun s1 =>
    getColor_cached_eq gc (CoordinateOverlay.getColor gc o s0).1 s1
      (CoordinateOverlay.getColor gc o s0).2 hcol hne⟩

/-- C9 witness: a freshly constructed overlay, colored once at the default
state through a constant external color function, keeps its cached color
through a later call at a state with entirely different coloring
options. -/
theorem c9_color_cached_witness :
    (CoordinateOverlay.make ("predictions") defaultLabel).color = none ∧
    (CoordinateOverlay.getColor constColor
        (CoordinateOverlay.make ("predictions") defaultLabel)
        defaultState).2 ≠ "" ∧
    ((CoordinateOverlay.getColor constColor
        (CoordinateOverlay.make ("predictions") defaultLabel)
        defaultState).1).color
      = some (CoordinateOverlay.getColor constColor
          (CoordinateOverlay.make ("predictions") defaultLabel)
          defaultState).2 ∧
    CoordinateOverlay.getColor constColor
        (CoordinateOverlay.getColor constColor
          (CoordinateOverlay.make ("predictions") defaultLabel)
          defaultState).1 recoloredState
      = ((CoordinateOverlay.getColor constColor
            (CoordinateOverlay.make ("predictions") defaultLabel)
            defaultState).1,
         (CoordinateOverlay.getColor constColor
            (CoordinateOverlay.make ("predictions") defaultLabel)
            defaultState).2) := by
  have h := c9_color_cached constColor
    (CoordinateOverlay.make ("predictions") defaultLabel) defaultState rfl
    (by decide)
  exact ⟨rfl, by decide, h.1, h.2 recoloredState⟩

/-- C4 witness: the amended behaviour at a concrete state, field, label
and raising predicate. -/
theorem c4_filter_error_propagates_witness :
    excludedByActivePaths raisingFilterState.options ("ground_truth")
      = false ∧
    raisingPred defaultLabel = Except.error () ∧
    isShown raisingFilterState ("ground_truth") defaultLabel
      = Except.error () :=
  ⟨rfl, rfl,
    c4_filter_error_propagates raisingFilterState ("ground_truth")
      defaultLabel raisingTable raisingPred rfl rfl rfl rfl⟩

end Looker
